import Mathlib

/-!
Verification of the EchoCog/echopad balancer control plane against its
specification.  The definitions below are a shallow embedding of the
repository's Rust code: `StateDatabaseType.from_str` follows
src/balancer/state_database_type.rs line by line, the wire-message parameter
types follow the structs under src/agent/jsonrpc and
src/balancer/management_service/http_route/api/ws_agent_socket/jsonrpc, and
the `GET /api/v1/agents` handler follows
src/balancer/management_service/http_route/api/get_agents.rs.  Types whose
definitions are not among the staged sources (only their uses are) are
modelled from the spec and say so in their doc comments.
-/

/-! ## Model of `url::Url::parse` (the url crate), as far as `from_str` uses it

`from_str` uses the parser only to decide success/failure and to read
`url.scheme()`.  Per the WHATWG URL standard the parser first removes leading
and trailing C0-control-or-space characters, then removes every ASCII tab and
newline, then reads a scheme: an ASCII-alpha character followed by
ASCII-alphanumeric, `+`, `-` or `.` characters up to a `:`, reported
lowercased; an input with no such scheme is rejected (relative URL without a
base).  Validation of what follows the scheme (authority, host, port) is not
modelled: inputs that the real parser would reject for a malformed host are
treated as parsing successfully here.  None of the claims' inputs fall in
that gap. -/

def isC0ControlOrSpace (c : Char) : Bool := c.toNat ≤ 32

def isUrlTabOrNewline (c : Char) : Bool := c == '\t' || c == '\n' || c == '\r'

def isAsciiAlpha (c : Char) : Bool := ('a' ≤ c && c ≤ 'z') || ('A' ≤ c && c ≤ 'Z')

def isSchemeChar (c : Char) : Bool :=
  isAsciiAlpha c || ('0' ≤ c && c ≤ '9') || c == '+' || c == '-' || c == '.'

/-- Remove the longest suffix whose characters all satisfy `q`. -/
def trimEndBy (q : Char → Bool) : List Char → List Char
  | [] => []
  | c :: cs =>
    match trimEndBy q cs with
    | [] => if q c then [] else [c]
    | r => c :: r

/-- The WHATWG input preparation: strip C0 controls and spaces from both
ends, then drop all ASCII tabs and newlines. -/
def urlPreprocess (l : List Char) : List Char :=
  (trimEndBy isC0ControlOrSpace (l.dropWhile isC0ControlOrSpace)).filter
    (fun c => !(isUrlTabOrNewline c))

/-- The characters of the scheme, up to but not including the `:`; `none`
when no `:` terminates a run of scheme characters. -/
def schemeSpan : List Char → Option (List Char)
  | [] => none
  | c :: cs =>
    if c == ':' then some []
    else if isSchemeChar c then (schemeSpan cs).map (fun r => c :: r)
    else none

/-- The scheme of a prepared input: first character ASCII alpha, then scheme
characters up to `:`, lowercased. -/
def parseSchemeList (l : List Char) : Option (List Char) :=
  match l with
  | [] => none
  | c :: _ =>
    if isAsciiAlpha c then (schemeSpan l).map (fun r => r.map Char.toLower)
    else none

/-- `Url::parse(input).map(|u| u.scheme().to_string())`, in the fragment of
the url crate modelled here. -/
def urlParseScheme (s : String) : Option String :=
  (parseSchemeList (urlPreprocess s.data)).map String.mk

/-! ## Model of the Rust std string and path operations `from_str` uses -/

/-- `str::strip_prefix` on character lists, the prefix given first:
`stripPrefixChars pre l` is Rust's `l.strip_prefix(pre)` — `some` of the
remainder when `pre` is a prefix of `l`, `none` otherwise. -/
def stripPrefixChars : List Char → List Char → Option (List Char)
  | [], l => some l
  | _ :: _, [] => none
  | p :: ps, c :: cs => if c == p then stripPrefixChars ps cs else none

/-- The code points with the Unicode White_Space property, which is what
`char::is_whitespace`, and hence `str::trim`, tests. -/
def rustWhitespaceCodes : List Nat :=
  [9, 10, 11, 12, 13, 32, 133, 160, 5760, 8192, 8193, 8194, 8195, 8196, 8197,
   8198, 8199, 8200, 8201, 8202, 8232, 8233, 8239, 8287, 12288]

def isRustWhitespace (c : Char) : Bool := rustWhitespaceCodes.contains c.toNat

/-- `str::trim` on character lists: whitespace removed from both ends. -/
def rustTrimChars (l : List Char) : List Char :=
  trimEndBy isRustWhitespace (l.dropWhile isRustWhitespace)

def rustTrim (s : String) : String := String.mk (rustTrimChars s.data)

/-- `Path::new(p).is_absolute()` on Unix: the path has a root, i.e. begins
with `/`. -/
def pathIsAbsoluteChars : List Char → Bool
  | [] => false
  | c :: _ => c == '/'

def pathIsAbsolute (s : String) : Bool := pathIsAbsoluteChars s.data

/-! ## src/balancer/state_database_type.rs -/

inductive StateDatabaseType where
  | File (path : String)
  | Memory
  deriving DecidableEq, Repr

/-- The distinct `anyhow!` errors `from_str` produces, as constructors. -/
inductive StateDbParseError where
  | invalidUrl
  | invalidFileUrl
  | emptyFilePath
  | relativeFilePath (path : String)
  | unsupportedScheme (scheme : String)
  deriving DecidableEq, Repr

/-- `impl FromStr for StateDatabaseType`, clause for clause: parse the input
as a URL; on scheme `file`, strip the literal prefix `file://` from the raw
input (erring when it is not there), trim the remainder, reject an empty or
relative path, and keep the trimmed path; on scheme `memory`, ignore the
rest of the descriptor; reject any other scheme. -/
def StateDatabaseType.from_str (input : String) :
    Except StateDbParseError StateDatabaseType :=
  match urlParseScheme input with
  | none => .error .invalidUrl
  | some scheme =>
    if scheme = "file" then
      match stripPrefixChars (("file://").data) input.data with
      | none => .error .invalidFileUrl
      | some rest =>
        let path := rustTrimChars rest
        if path.isEmpty then
          .error .emptyFilePath
        else if !(pathIsAbsoluteChars path) then
          .error (.relativeFilePath (String.mk path))
        else
          .ok (.File (String.mk path))
    else if scheme = "memory" then
      .ok .Memory
    else
      .error (.unsupportedScheme scheme)

/-! ## Data model of the control plane

The types below are used by the staged sources (the notification-parameter
structs and the reconciliation flow) but defined elsewhere in the
repository; they are modelled from the spec. -/

/-- Modelled from the spec: `AgentDesiredState` (its defining module is not
among the staged sources).  Spec section 3: "a closed set of lifecycle
intents (e.g., Active — accept new work; Draining — finish in-flight work,
accept no new work; Stopped — agent should shut down)". -/
inductive AgentDesiredState where
  | Active
  | Draining
  | Stopped
  deriving DecidableEq, Repr

/-- Modelled from the spec: `SlotAggregatedStatusSnapshot` (its defining
module is not among the staged sources).  Spec section 3: a value type
summarizing an agent's slots; the fields the control plane reads are the
declared total capacity and the busy-slot count, kept here; the other
example fields (queued requests, model identity, timestamp) play no role in
any claim and are elided. -/
structure SlotAggregatedStatusSnapshot where
  total_slots : Nat
  busy_slots : Nat
  deriving DecidableEq, Repr

/-- Modelled from the spec: the corrective commands reconciliation can emit
(spec section 4.4: `Stop` and `Drain`). -/
inductive AgentCommand where
  | Stop
  | Drain
  deriving DecidableEq, Repr

/-- Modelled from the spec: the reconciliation logic of spec section 4.4
(its defining module is not among the staged sources).  "Pure function of
`(latest_snapshot, desired_state) -> Optional<Command>` ... if
`desired_state == Draining` and the snapshot reports zero busy slots, emit a
`Stop` command; if `desired_state == Active` and the snapshot's busy-slot
count exceeds its declared capacity, emit a `Drain` command ... No other
automatic transitions." -/
def reconcile (latest_snapshot : SlotAggregatedStatusSnapshot)
    (desired_state : AgentDesiredState) : Option AgentCommand :=
  match desired_state with
  | .Draining => if latest_snapshot.busy_slots = 0 then some .Stop else none
  | .Active =>
    if latest_snapshot.total_slots < latest_snapshot.busy_slots then some .Drain
    else none
  | .Stopped => none

/-! ## A JSON value model and the serde codecs of the wire messages

The parameter structs derive serde's `Serialize` and `Deserialize`.  The
functions below spell out what those derives do on a JSON data format:
a struct serializes to an object with one entry per field in declaration
order; deserialization walks the input object's entries, erring on a
duplicate field and ignoring an unknown one, and afterwards requires every
field to have been seen — except that a field of type `Option<T>` defaults
to `None` when missing.  (serde converts each value as it is encountered;
converting them after the walk, as below, yields the same result, only the
reported error can differ when several fields are bad.)  A `u32`/`usize`
number deserializes from a non-negative JSON integer; an `Option<String>`
serializes `None` as `null`; a fieldless enum variant serializes as its
name. -/

inductive Json where
  | null
  | bool (b : Bool)
  | num (n : Int)
  | str (s : String)
  | arr (items : List Json)
  | obj (fields : List (String × Json))

inductive SerdeError where
  | invalidType
  | invalidValue
  | duplicateField (field : String)
  | missingField (field : String)
  deriving DecidableEq, Repr

def serializeAgentDesiredState : AgentDesiredState → Json
  | .Active => .str ("Active")
  | .Draining => .str ("Draining")
  | .Stopped => .str ("Stopped")

def deserializeAgentDesiredState : Json → Except SerdeError AgentDesiredState
  | .str s =>
    if s = "Active" then .ok .Active
    else if s = "Draining" then .ok .Draining
    else if s = "Stopped" then .ok .Stopped
    else .error .invalidValue
  | _ => .error .invalidType

def serializeNat (n : Nat) : Json := .num (Int.ofNat n)

def deserializeNat : Json → Except SerdeError Nat
  | .num i => if 0 ≤ i then .ok i.toNat else .error .invalidValue
  | _ => .error .invalidType

def serializeOptString : Option String → Json
  | none => .null
  | some s => .str s

def deserializeOptString : Json → Except SerdeError (Option String)
  | .null => .ok none
  | .str s => .ok (some s)
  | _ => .error .invalidType

def serializeSlotAggregatedStatusSnapshot (s : SlotAggregatedStatusSnapshot) : Json :=
  .obj [(("total_slots"), serializeNat s.total_slots),
        (("busy_slots"), serializeNat s.busy_slots)]

def snapshotFieldStep (acc : Option Nat × Option Nat) (kv : String × Json) :
    Except SerdeError (Option Nat × Option Nat) :=
  if kv.1 = "total_slots" then
    match acc.1 with
    | some _ => .error (.duplicateField kv.1)
    | none => (deserializeNat kv.2).map (fun n => (some n, acc.2))
  else if kv.1 = "busy_slots" then
    match acc.2 with
    | some _ => .error (.duplicateField kv.1)
    | none => (deserializeNat kv.2).map (fun n => (acc.1, some n))
  else
    .ok acc

def deserializeSlotAggregatedStatusSnapshot :
    Json → Except SerdeError SlotAggregatedStatusSnapshot
  | .obj fields => do
    let st ← fields.foldlM snapshotFieldStep (none, none)
    match st.1 with
    | none => .error (.missingField ("total_slots"))
    | some t =>
      match st.2 with
      | none => .error (.missingField ("busy_slots"))
      | some b => .ok ⟨t, b⟩
  | _ => .error .invalidType

/-! ## The wire-message parameter structs (staged sources) -/

/-- src/agent/jsonrpc/notification_params/set_state_params.rs -/
structure SetStateParams where
  desired_state : AgentDesiredState
  deriving DecidableEq, Repr

/-- src/balancer/.../jsonrpc/notification_params/update_agent_status_params.rs -/
structure UpdateAgentStatusParams where
  slot_aggregated_status_snapshot : SlotAggregatedStatusSnapshot
  deriving DecidableEq, Repr

/-- src/balancer/.../jsonrpc/notification_params/register_agent_params.rs -/
structure RegisterAgentParams where
  name : Option String
  slot_aggregated_status_snapshot : SlotAggregatedStatusSnapshot
  deriving DecidableEq, Repr

def serializeSetStateParams (p : SetStateParams) : Json :=
  .obj [(("desired_state"), serializeAgentDesiredState p.desired_state)]

def setStateFieldStep (acc : Option AgentDesiredState) (kv : String × Json) :
    Except SerdeError (Option AgentDesiredState) :=
  if kv.1 = "desired_state" then
    match acc with
    | some _ => .error (.duplicateField kv.1)
    | none => (deserializeAgentDesiredState kv.2).map some
  else
    .ok acc

def deserializeSetStateParams : Json → Except SerdeError SetStateParams
  | .obj fields => do
    let st ← fields.foldlM setStateFieldStep none
    match st with
    | none => .error (.missingField ("desired_state"))
    | some d => .ok ⟨d⟩
  | _ => .error .invalidType

def serializeUpdateAgentStatusParams (p : UpdateAgentStatusParams) : Json :=
  .obj [(("slot_aggregated_status_snapshot"),
         serializeSlotAggregatedStatusSnapshot p.slot_aggregated_status_snapshot)]

def updateAgentStatusFieldStep (acc : Option SlotAggregatedStatusSnapshot)
    (kv : String × Json) : Except SerdeError (Option SlotAggregatedStatusSnapshot) :=
  if kv.1 = "slot_aggregated_status_snapshot" then
    match acc with
    | some _ => .error (.duplicateField kv.1)
    | none => (deserializeSlotAggregatedStatusSnapshot kv.2).map some
  else
    .ok acc

def deserializeUpdateAgentStatusParams : Json → Except SerdeError UpdateAgentStatusParams
  | .obj fields => do
    let st ← fields.foldlM updateAgentStatusFieldStep none
    match st with
    | none => .error (.missingField ("slot_aggregated_status_snapshot"))
    | some s => .ok ⟨s⟩
  | _ => .error .invalidType

def serializeRegisterAgentParams (p : RegisterAgentParams) : Json :=
  .obj [(("name"), serializeOptString p.name),
        (("slot_aggregated_status_snapshot"),
         serializeSlotAggregatedStatusSnapshot p.slot_aggregated_status_snapshot)]

def registerAgentFieldStep
    (acc : Option (Option String) × Option SlotAggregatedStatusSnapshot)
    (kv : String × Json) :
    Except SerdeError (Option (Option String) × Option SlotAggregatedStatusSnapshot) :=
  if kv.1 = "name" then
    match acc.1 with
    | some _ => .error (.duplicateField kv.1)
    | none => (deserializeOptString kv.2).map (fun v => (some v, acc.2))
  else if kv.1 = "slot_aggregated_status_snapshot" then
    match acc.2 with
    | some _ => .error (.duplicateField kv.1)
    | none =>
      (deserializeSlotAggregatedStatusSnapshot kv.2).map (fun v => (acc.1, some v))
  else
    .ok acc

def deserializeRegisterAgentParams : Json → Except SerdeError RegisterAgentParams
  | .obj fields => do
    let st ← fields.foldlM registerAgentFieldStep (none, none)
    match st.2 with
    | none => .error (.missingField ("slot_aggregated_status_snapshot"))
    | some snap =>
      match st.1 with
      | none => .ok ⟨none, snap⟩
      | some v => .ok ⟨v, snap⟩
  | _ => .error .invalidType

/-! ## The GET /api/v1/agents handler (get_agents.rs) -/

/-- Modelled from the spec: one agent's public registry fields as
`make_snapshot()` copies them (spec section 4.3: id, display name, latest
snapshot, desired state); the `FleetSnapshot` type is not among the staged
sources. -/
structure FleetAgent where
  id : String
  name : Option String
  slot_aggregated_status_snapshot : SlotAggregatedStatusSnapshot
  desired_state : AgentDesiredState
  deriving DecidableEq, Repr

/-- Modelled from the spec: the fleet-wide snapshot `make_snapshot()`
produces, a point-in-time copy of all current agent records. -/
structure FleetSnapshot where
  agents : List FleetAgent
  deriving DecidableEq, Repr

def serializeFleetAgent (a : FleetAgent) : Json :=
  .obj [(("id"), .str a.id),
        (("name"), serializeOptString a.name),
        (("slot_aggregated_status_snapshot"),
         serializeSlotAggregatedStatusSnapshot a.slot_aggregated_status_snapshot),
        (("desired_state"), serializeAgentDesiredState a.desired_state)]

def serializeFleetSnapshot (s : FleetSnapshot) : Json :=
  .arr (s.agents.map serializeFleetAgent)

/-- Modelled from the spec: `make_snapshot()` fails only on an internal
synchronization fault (a poisoned lock). -/
inductive PoolError where
  | lockPoisoned
  deriving DecidableEq, Repr

structure HttpResponse where
  status : Nat
  body : Json

/-- An actix-web error response: `ErrorInternalServerError` attaches HTTP
status 500 to any error it wraps. -/
structure ActixError where
  status : Nat

def errorInternalServerError (_e : PoolError) : ActixError := ⟨500⟩

/-- The body of `respond` in get_agents.rs:
`Ok(HttpResponse::Ok().json(pool.make_snapshot().map_err(ErrorInternalServerError)?))`,
over the result of `make_snapshot()`. -/
def getAgentsRespond (snapshot : Except PoolError FleetSnapshot) :
    Except ActixError HttpResponse :=
  match snapshot.mapError errorInternalServerError with
  | .ok s => .ok ⟨200, serializeFleetSnapshot s⟩
  | .error e => .error e

/-- actix-web renders a handler's `Err` as a response carrying the error's
status code; the handler performs no other action in either case. -/
def actixRun (r : Except ActixError HttpResponse) : HttpResponse :=
  match r with
  | .ok resp => resp
  | .error e => ⟨e.status, .null⟩

/-! ## Facts about the embedding -/

theorem trimEndBy_cons_of_neg (q : Char → Bool) (c : Char) (l : List Char)
    (h : q c = false) : trimEndBy q (c :: l) = c :: trimEndBy q l := by
  cases htl : trimEndBy q l with
  | nil => simp [trimEndBy, htl, h]
  | cons a as => simp [trimEndBy, htl]

theorem trimEndBy_append_of_clean (q : Char → Bool) (a l : List Char)
    (h : ∀ c ∈ a, q c = false) :
    trimEndBy q (a ++ l) = a ++ trimEndBy q l := by
  induction a with
  | nil => rfl
  | cons c cs ih =>
    have hc : q c = false := h c (List.mem_cons_self c cs)
    have hcs : ∀ x ∈ cs, q x = false := fun x hx => h x (List.mem_cons_of_mem c hx)
    rw [List.cons_append, trimEndBy_cons_of_neg q c (cs ++ l) hc, ih hcs]
    rfl

theorem urlPreprocess_file_descriptor (l : List Char) :
    urlPreprocess (("file://").data ++ l) =
      ("file://").data ++
        (trimEndBy isC0ControlOrSpace l).filter (fun c => !(isUrlTabOrNewline c)) := by
  unfold urlPreprocess
  rw [show (("file://").data ++ l).dropWhile isC0ControlOrSpace =
        ("file://").data ++ l from rfl]
  rw [trimEndBy_append_of_clean isC0ControlOrSpace (("file://").data) l (by decide)]
  rw [List.filter_append]
  rfl

/-- Whatever follows `file://`, the URL parser reads scheme `file`. -/
theorem urlParseScheme_file_descriptor (p : String) :
    urlParseScheme (("file://") ++ p) = some ("file") := by
  unfold urlParseScheme
  rw [show (("file://") ++ p).data = ("file://").data ++ p.data from rfl,
      urlPreprocess_file_descriptor]
  rfl

/-- `from_str` on a descriptor of the form `file://` ++ p: the result is
decided by the trimmed p — empty, relative, or kept as the file path. -/
theorem from_str_file_descriptor (p : String) :
    StateDatabaseType.from_str (("file://") ++ p) =
      (if (rustTrimChars p.data).isEmpty then .error .emptyFilePath
       else if !(pathIsAbsoluteChars (rustTrimChars p.data)) then
         .error (.relativeFilePath (String.mk (rustTrimChars p.data)))
       else .ok (.File (String.mk (rustTrimChars p.data)))) := by
  unfold StateDatabaseType.from_str
  rw [urlParseScheme_file_descriptor,
      show (("file://") ++ p).data = ("file://").data ++ p.data from rfl]
  rfl

/-! ## The claims about the state-store descriptor parser -/

/-- C3: parsing the descriptor `memory://` succeeds with the `Memory`
variant, the in-memory backend. -/
theorem memory_descriptor_parses_to_Memory :
    StateDatabaseType.from_str ("memory://") = .ok .Memory := rfl

/-- C9: scheme handling is case-asymmetric: `MEMORY://` parses to `Memory`
(the URL parser lowercases the scheme), while `FILE:///absolute/path` is
rejected — its scheme still reads as `file`, but stripping the literal
lowercase `file://` from the raw input fails. -/
theorem scheme_case_asymmetry :
    StateDatabaseType.from_str ("MEMORY://") = .ok .Memory ∧
    urlParseScheme ("FILE:///absolute/path") = some ("file") ∧
    pathIsAbsolute ("/absolute/path") = true ∧
    StateDatabaseType.from_str ("FILE:///absolute/path") = .error .invalidFileUrl :=
  ⟨rfl, rfl, rfl, rfl⟩

/-- C8: every descriptor whose URL scheme parses as `memory` yields the
`Memory` variant, which carries no path, whatever host or path the
descriptor mentions. -/
theorem memory_scheme_ignores_rest (input : String)
    (h : urlParseScheme input = some ("memory")) :
    StateDatabaseType.from_str input = .ok .Memory := by
  unfold StateDatabaseType.from_str
  rw [h]
  rfl

/-- C8, witness: `memory://some/ignored/path` satisfies the hypothesis and
parses to `Memory`. -/
theorem memory_scheme_ignores_rest_witness :
    urlParseScheme ("memory://some/ignored/path") = some ("memory") ∧
    StateDatabaseType.from_str ("memory://some/ignored/path") = .ok .Memory :=
  ⟨rfl, memory_scheme_ignores_rest ("memory://some/ignored/path") rfl⟩

/-- C10: around a file path, whitespace is trimmed before validation and
before the path is stored: `file:///tmp/x ` yields `File "/tmp/x"`, a
whitespace-only path such as `file://   ` is rejected as empty, and in
general a successful parse of `file://` ++ p stores exactly the trimmed p. -/
theorem file_path_trimmed_before_validation :
    StateDatabaseType.from_str ("file:///tmp/x ") = .ok (.File ("/tmp/x")) ∧
    StateDatabaseType.from_str ("file://   ") = .error .emptyFilePath ∧
    ∀ (p : String) (res : StateDatabaseType),
      StateDatabaseType.from_str (("file://") ++ p) = .ok res →
      res = .File (rustTrim p) := by
  refine ⟨rfl, rfl, ?_⟩
  intro p res h
  rw [from_str_file_descriptor] at h
  split at h
  · exact absurd h (by simp)
  · split at h
    · exact absurd h (by simp)
    · rw [show StateDatabaseType.File (rustTrim p) =
          .File (String.mk (rustTrimChars p.data)) from rfl]
      exact (Except.ok.injEq .. ▸ h).symm

/-- C2, counterexample: `/var/db ` is an absolute, non-empty path, yet
parsing `file:///var/db ` yields `File "/var/db"` — the stored path is the
trimmed one, not the path as given. -/
theorem absolute_path_roundtrip_counterexample :
    pathIsAbsolute ("/var/db ") = true ∧ ("/var/db ") ≠ ("") ∧
    StateDatabaseType.from_str (("file://") ++ ("/var/db ")) ≠
      .ok (.File ("/var/db ")) := by
  refine ⟨rfl, by decide, ?_⟩
  intro h
  have hev : StateDatabaseType.from_str (("file://") ++ ("/var/db ")) =
      .ok (.File ("/var/db")) := rfl
  rw [hev] at h
  simp at h

/-- C2, as amended: for every absolute, non-empty path p equal to its own
trim (no surrounding whitespace), parsing `file://` ++ p succeeds and
returns `File p`. -/
theorem absolute_path_roundtrip (p : String)
    (habs : pathIsAbsolute p = true) (htrim : rustTrim p = p) :
    StateDatabaseType.from_str (("file://") ++ p) = .ok (.File p) := by
  have hdata : rustTrimChars p.data = p.data := congrArg String.data htrim
  have habs' : pathIsAbsoluteChars p.data = true := habs
  have hne : p.data.isEmpty = false := by
    cases hd : p.data with
    | nil => rw [hd] at habs'; exact absurd habs' (by decide)
    | cons c cs => rfl
  rw [from_str_file_descriptor, hdata, hne, habs']
  simp

/-- C2, witness: the spec's own example `file:///absolute/path`. -/
theorem absolute_path_roundtrip_witness :
    pathIsAbsolute ("/absolute/path") = true ∧
    rustTrim ("/absolute/path") = ("/absolute/path") ∧
    StateDatabaseType.from_str (("file://") ++ ("/absolute/path")) =
      .ok (.File ("/absolute/path")) :=
  ⟨rfl, rfl, absolute_path_roundtrip ("/absolute/path") rfl rfl⟩

/-- C1, counterexample: `file:/tmp/x` parses as a URL with the supported
scheme `file`, and has no (hence neither an empty nor a relative) path
after a literal `file://`, yet `from_str` rejects it: an error case the
claim's list does not contain. -/
theorem parse_failure_cases_counterexample :
    (∃ e, StateDatabaseType.from_str ("file:/tmp/x") = .error e) ∧
    urlParseScheme ("file:/tmp/x") = some ("file") ∧
    stripPrefixChars (("file://").data) (("file:/tmp/x")).data = none :=
  ⟨⟨.invalidFileUrl, rfl⟩, rfl, rfl⟩

/-- C1, as amended: the four inputs the claim lists all fail, and in
general `from_str` errs exactly when the input has no parsable scheme, the
scheme is neither `file` nor `memory`, or the scheme is `file` and either
the raw input does not start with the literal `file://`, or the stripped
remainder trims to an empty or to a relative path. -/
theorem parse_failure_exact_cases :
    (∃ e, StateDatabaseType.from_str ("file://relative") = .error e) ∧
    (∃ e, StateDatabaseType.from_str ("file://") = .error e) ∧
    (∃ e, StateDatabaseType.from_str ("mysql://host/db") = .error e) ∧
    (∃ e, StateDatabaseType.from_str ("not-a-url") = .error e) ∧
    ∀ input : String,
      (∃ e, StateDatabaseType.from_str input = .error e) ↔
        (urlParseScheme input = none ∨
         (∃ s, urlParseScheme input = some s ∧ s ≠ ("file") ∧ s ≠ ("memory")) ∨
         (urlParseScheme input = some ("file") ∧
          (stripPrefixChars (("file://").data) input.data = none ∨
           ∃ r, stripPrefixChars (("file://").data) input.data = some r ∧
             (rustTrimChars r = [] ∨ pathIsAbsoluteChars (rustTrimChars r) = false)))) := by
  refine ⟨⟨.relativeFilePath ("relative"), rfl⟩, ⟨.emptyFilePath, rfl⟩,
    ⟨.unsupportedScheme ("mysql"), rfl⟩, ⟨.invalidUrl, rfl⟩, ?_⟩
  intro input
  cases hu : urlParseScheme input with
  | none => simp [StateDatabaseType.from_str, hu]
  | some s =>
    by_cases hf : s = ("file")
    · subst hf
      cases hsp : stripPrefixChars (("file://").data) input.data with
      | none => simp [StateDatabaseType.from_str, hu, hsp]
      | some r =>
        by_cases hemp : (rustTrimChars r).isEmpty = true
        · have hnil : rustTrimChars r = [] := by
            cases hcase : rustTrimChars r with
            | nil => rfl
            | cons a as => rw [hcase] at hemp; exact absurd hemp (by simp)
          simp [StateDatabaseType.from_str, hu, hsp, hemp, hnil]
        · have hnnil : ¬ rustTrimChars r = [] := by
            intro hcase
            rw [hcase] at hemp
            exact hemp rfl
          by_cases habs : pathIsAbsoluteChars (rustTrimChars r) = true
          · simp [StateDatabaseType.from_str, hu, hsp, hemp, hnnil, habs]
          · have habs' : pathIsAbsoluteChars (rustTrimChars r) = false :=
              Bool.not_eq_true _ ▸ habs
            simp [StateDatabaseType.from_str, hu, hsp, hemp, hnnil, habs']
    · by_cases hm : s = ("memory")
      · subst hm
        simp [StateDatabaseType.from_str, hu]
      · simp [StateDatabaseType.from_str, hu, hf, hm]

/-! ## The claims about reconciliation, the HTTP handler and the wire types -/

/-- C4: reconciliation is a pure function of the latest snapshot and the
desired state: `Stop` when draining with zero busy slots, `Drain` when
active with more busy slots than declared capacity, nothing otherwise. -/
theorem reconcile_rules :
    ∀ (snap : SlotAggregatedStatusSnapshot) (desired : AgentDesiredState),
      reconcile snap desired =
        (if desired = .Draining ∧ snap.busy_slots = 0 then some .Stop
         else if desired = .Active ∧ snap.total_slots < snap.busy_slots then
           some .Drain
         else none) := by
  intro snap desired
  cases desired <;> simp [reconcile]

/-- C5: the GET /api/v1/agents handler answers 200 with the serialized
fleet snapshot when `make_snapshot()` succeeds, and 500 when it fails;
it does nothing else in either case. -/
theorem get_agents_ok_or_500 :
    (∀ s : FleetSnapshot,
      actixRun (getAgentsRespond (.ok s)) = ⟨200, serializeFleetSnapshot s⟩) ∧
    (∀ e : PoolError, (actixRun (getAgentsRespond (.error e))).status = 500) := by
  constructor
  · intro s; rfl
  · intro e; rfl

/-- Deserialization of a serialized snapshot restores the snapshot. -/
theorem slot_snapshot_roundtrip (snap : SlotAggregatedStatusSnapshot) :
    deserializeSlotAggregatedStatusSnapshot
      (serializeSlotAggregatedStatusSnapshot snap) = .ok snap := by
  obtain ⟨t, b⟩ := snap
  rfl

/-- C7: the three wire-message parameter types round-trip through
serialization. -/
theorem params_serialization_roundtrip :
    (∀ x : SetStateParams,
      deserializeSetStateParams (serializeSetStateParams x) = .ok x) ∧
    (∀ x : UpdateAgentStatusParams,
      deserializeUpdateAgentStatusParams (serializeUpdateAgentStatusParams x) =
        .ok x) ∧
    (∀ x : RegisterAgentParams,
      deserializeRegisterAgentParams (serializeRegisterAgentParams x) = .ok x) := by
  refine ⟨?_, ?_, ?_⟩
  · intro x
    obtain ⟨d⟩ := x
    cases d <;> rfl
  · intro x
    obtain ⟨⟨t, b⟩⟩ := x
    rfl
  · intro x
    obtain ⟨n, ⟨t, b⟩⟩ := x
    cases n <;> rfl

/-- Walking a field list that never mentions the snapshot key leaves the
snapshot slot of the accumulator empty (or errors on the way). -/
theorem registerAgent_foldlM_no_snapshot (fields : List (String × Json)) :
    ∀ acc : Option (Option String) × Option SlotAggregatedStatusSnapshot,
      (∀ kv ∈ fields, kv.1 ≠ ("slot_aggregated_status_snapshot")) →
      acc.2 = none →
      (∃ e, fields.foldlM registerAgentFieldStep acc = .error e) ∨
      (∃ n, fields.foldlM registerAgentFieldStep acc = .ok (n, none)) := by
  induction fields with
  | nil =>
    intro acc _ h2
    right
    refine ⟨acc.1, ?_⟩
    obtain ⟨a, b⟩ := acc
    simp at h2
    subst h2
    rfl
  | cons kv rest ih =>
    intro acc hk h2
    have hkv : kv.1 ≠ ("slot_aggregated_status_snapshot") :=
      hk kv (List.mem_cons_self kv rest)
    have hrest : ∀ x ∈ rest, x.1 ≠ ("slot_aggregated_status_snapshot") :=
      fun x hx => hk x (List.mem_cons_of_mem kv hx)
    rw [List.foldlM_cons]
    by_cases hname : kv.1 = ("name")
    · cases hacc : acc.1 with
      | some v =>
        left
        refine ⟨.duplicateField kv.1, ?_⟩
        have hstep : registerAgentFieldStep acc kv =
            .error (.duplicateField kv.1) := by
          simp [registerAgentFieldStep, hname, hacc]
        rw [hstep]
        rfl
      | none =>
        cases hdes : deserializeOptString kv.2 with
        | error e =>
          left
          refine ⟨e, ?_⟩
          have hstep : registerAgentFieldStep acc kv = .error e := by
            simp [registerAgentFieldStep, hname, hacc, hdes, Except.map]
          rw [hstep]
          rfl
        | ok v =>
          have hstep : registerAgentFieldStep acc kv = .ok (some v, acc.2) := by
            simp [registerAgentFieldStep, hname, hacc, hdes, Except.map]
          rw [hstep]
          have hbind : ((Except.ok (some v, acc.2) : Except SerdeError _) >>=
              fun a => rest.foldlM registerAgentFieldStep a) =
              rest.foldlM registerAgentFieldStep (some v, acc.2) := rfl
          rw [hbind]
          exact ih (some v, acc.2) hrest h2
    · have hstep : registerAgentFieldStep acc kv = .ok acc := by
        simp [registerAgentFieldStep, hname, hkv]
      rw [hstep]
      have hbind : ((Except.ok acc : Except SerdeError _) >>=
          fun a => rest.foldlM registerAgentFieldStep a) =
          rest.foldlM registerAgentFieldStep acc := rfl
      rw [hbind]
      exact ih acc hrest h2

/-- C6: the register payload is an optional name plus a required snapshot:
an object without a `name` entry deserializes with `name = none`; an
object with no `slot_aggregated_status_snapshot` entry fails. -/
theorem register_agent_optional_name_required_snapshot :
    (∀ snap : SlotAggregatedStatusSnapshot,
      deserializeRegisterAgentParams
        (.obj [(("slot_aggregated_status_snapshot"),
                serializeSlotAggregatedStatusSnapshot snap)]) =
        .ok ⟨none, snap⟩) ∧
    (∀ fields : List (String × Json),
      (∀ kv ∈ fields, kv.1 ≠ ("slot_aggregated_status_snapshot")) →
      ∃ e, deserializeRegisterAgentParams (.obj fields) = .error e) := by
  constructor
  · intro snap
    obtain ⟨t, b⟩ := snap
    rfl
  · intro fields hk
    rcases registerAgent_foldlM_no_snapshot fields (none, none) hk rfl with
      ⟨e, he⟩ | ⟨n, hn⟩
    · refine ⟨e, ?_⟩
      simp only [deserializeRegisterAgentParams, he]
      rfl
    · refine ⟨.missingField ("slot_aggregated_status_snapshot"), ?_⟩
      simp only [deserializeRegisterAgentParams, hn]
      rfl

/-- C6, witness: the empty object has no snapshot entry and is rejected. -/
theorem register_agent_missing_snapshot_witness :
    ∃ e, deserializeRegisterAgentParams (.obj []) = .error e :=
  register_agent_optional_name_required_snapshot.2 [] (by simp)
